import Mathlib

/-!
# Verification of the ST pipeline controller core

A shallow embedding of `stpipeline/core/pipeline.py`: the configuration
sanity check (`Pipeline.sanityCheck`), the dataset-builder invocation
(`Pipeline.createDataset`), the staged run with conditional cleanup
(`Pipeline.run`, modelled as an event trace), and the chunk adapter
(`Pipeline.run_pipeline`, modelled both as the per-line parser that writes
the two temporary read files and as the per-chunk control flow of the
generator).

Python string operations used by the source (`str.replace` of a single
character, `str.split` with a single-character separator, `str.endswith`)
are re-implemented structurally over `List Char` so that every definition
reduces in the kernel.
-/

/-! ## Character-list string primitives

These mirror the exact Python semantics the source relies on:
`split` with an explicit separator keeps empty fields (Python
`"".split(x) = [""]`, `"a ".split(" ") = ["a", ""]`), and `replace`
rewrites every occurrence. -/

/-- Python `s.split(sep)` for a one-character separator: splits at every
occurrence, keeping empty fields. -/
def splitOnChar (sep : Char) : List Char → List (List Char)
  | [] => [[]]
  | c :: cs =>
    let r := splitOnChar sep cs
    if c = sep then [] :: r
    else
      match r with
      | [] => [[c]]
      | h :: t => (c :: h) :: t

/-- Python `s.replace(old, new)` for one-character arguments. -/
def replaceChar (old new : Char) (s : List Char) : List Char :=
  s.map (fun c => if c = old then new else c)

/-- Python `s.endswith(suffix)`. -/
def endsWithL (s suffix : List Char) : Bool :=
  decide (s.reverse.take suffix.length = suffix.reverse)

/-- Python `s.split(sep)` on a `String`, for a one-character separator. -/
def pySplit (sep : Char) (s : String) : List String :=
  (splitOnChar sep s.data).map (fun l => String.mk l)

/-! ## Chunk line parsing — `Pipeline.run_pipeline`, lines 167-181

For each line of a chunk the source runs
`cols = line.replace("\t", " ").split(" ")`, skips the line unless
`len(cols) == 5`, and otherwise sends `(cols[0], cols[1], cols[2])` to the
forward writer and `(cols[0], cols[3], cols[4])` to the reverse writer. -/

/-- One record sent to a fastq writer: `(header, sequence, quality)`. -/
structure FqRecord where
  header : List Char
  seq : List Char
  qual : List Char
deriving DecidableEq

/-- `line.replace("\t", " ").split(" ")` from the source. -/
def cols (line : List Char) : List (List Char) :=
  splitOnChar ' ' (replaceChar '\t' ' ' line)

/-- The body of the `for line in val.split("\n")` loop: `none` when the
line is skipped (`len(cols) != 5`), otherwise the forward and reverse
records written for it. -/
def parseLine (line : List Char) : Option (FqRecord × FqRecord) :=
  let c := cols line
  if c.length = 5 then
    some (⟨c.getD 0 [], c.getD 1 [], c.getD 2 []⟩,
          ⟨c.getD 0 [], c.getD 3 [], c.getD 4 []⟩)
  else
    none

/-- One step of the loop: append the parsed records (if any) to the
contents of the forward and reverse temporary files. -/
def pairStep (acc : List FqRecord × List FqRecord) (line : List Char) :
    List FqRecord × List FqRecord :=
  match parseLine line with
  | none => acc
  | some (r1, r2) => (acc.1 ++ [r1], acc.2 ++ [r2])

/-- The whole per-chunk loop of `run_pipeline`: the records written to the
forward (`_1.fastq`) and reverse (`_2.fastq`) temporary files, in order. -/
def processChunk (chunk : List Char) : List FqRecord × List FqRecord :=
  (splitOnChar '\n' chunk).foldl pairStep ([], [])

/-! ## Configuration and sanity check — `Pipeline.sanityCheck`, lines 60-91 -/

/-- The `Pipeline` object's configuration attributes used by
`sanityCheck` and `run` (initialised in `Pipeline.__init__`). The source's
`ref_annotation` attribute is named `ref_annot` here. -/
structure Pipeline where
  Fastq_fw : Option String
  Fastq_rv : Option String
  ids : Option String
  ref_map : Option String
  ref_annot : Option String
  expName : Option String
  htseq_mode : String
  molecular_barcodes : Bool
  mc_start_position : Int
  mc_end_position : Int
  l : Int
  clean : Bool
  contaminant_bt2_index : Option String

/-- Modelled from the spec: the helpers `fileOk` (a required file
"exists and is non-empty", false for a missing/`None` path) and `which`
(resolve an executable name "against the configured search path") live in
`stpipeline.common.utils`, outside the core source file; they are
abstracted as a total boolean predicate and a total resolver. -/
structure Env where
  fileOk : Option String → Bool
  which : String → Option String

/-- `required_scripts = set(['findIndexes','bowtie2'])` (line 80). -/
def requiredScripts : List String := ["findIndexes", "bowtie2"]

/-- The `conds` dictionary of lines 64-69, as an association list in
source order; `ra` is the value of the (non-`None`) annotation path. -/
def condsList (env : Env) (p : Pipeline) (ra : String) : List (String × Bool) :=
  [("FW", env.fileOk p.Fastq_fw), ("RV", env.fileOk p.Fastq_rv),
   ("ids", env.fileOk p.ids), ("ref", env.fileOk p.ref_annot),
   ("map", p.ref_map.isSome), ("Exp Name", p.expName.isSome),
   ("htseq_gtf", endsWithL ra.data ("gtf").data),
   ("htseq_mode", (p.htseq_mode == "union")
      || (p.htseq_mode == "intersection-nonempty")
      || (p.htseq_mode == "intersection-strict"))]

/-- `all(conds.values())` (line 71). -/
def condsOk (env : Env) (p : Pipeline) (ra : String) : Bool :=
  (condsList env p ra).all (fun c => c.2)

/-- The molecular-barcode window condition of line 75. -/
def mcWindowViol (p : Pipeline) : Bool :=
  p.molecular_barcodes
    && (decide (p.mc_start_position < p.l)
        || decide (p.mc_end_position ≤ p.mc_start_position))

/-- `unavailable_scripts` (lines 82-85): the required scripts `which`
cannot resolve. -/
def unavailableScripts (env : Env) : List String :=
  requiredScripts.filter (fun s => (env.which s).isNone)

/-- The distinct failure outcomes of `sanityCheck`: the Python
`AttributeError` raised by `None.endswith` at line 68, and the three
separate `RuntimeError`s of lines 73, 77 and 91 with the data their
messages are built from. -/
inductive SanityError where
  | attributeError (message : String)
  | condsError (conds : List (String × Bool))
  | mcWindowError
  | toolsError (missing : List String)
deriving DecidableEq

/-- `Pipeline.sanityCheck` (lines 60-91). The `conds` of lines 64-66 are
pure; line 68 then evaluates `self.ref_annotation.endswith("gtf")`, which
raises `AttributeError` when the annotation path is `None`. Otherwise the
aggregated check of line 71, the barcode-window check of line 75 and the
tool check of lines 80-91 run in that order, each raising its own error. -/
def sanityCheck (env : Env) (p : Pipeline) : Except SanityError Unit :=
  match p.ref_annot with
  | none => .error (.attributeError ("NoneType object has no attribute endswith"))
  | some ra =>
    if condsOk env p ra then
      if mcWindowViol p then
        .error (.mcWindowError)
      else if (unavailableScripts env).isEmpty then
        .ok ()
      else
        .error (.toolsError (unavailableScripts env))
    else
      .error (.condsError (condsList env p ra))

/-! ## Dataset-builder invocation — `Pipeline.createDataset`, lines 265-297 -/

/-- What `subprocess.Popen(...).communicate()` makes observable: the
captured standard output, the captured diagnostic/error channel, and the
process exit status (`proc.returncode`). -/
structure ProcResult where
  stdout : String
  errmsg : String
  returncode : Int

/-- The argument list built at lines 276-284. -/
def buildDatasetArgs (input_name output_name : String) (molecular_barcodes : Bool)
    (allowed_missmatches start_position end_position min_cluster_size : Int)
    (output_folder : Option String) : List String :=
  ["createDataset.py", "--input", input_name, "--output-name", output_name]
  ++ (if molecular_barcodes then
        ["--molecular-barcodes", "--mc-allowed-missmatches", toString allowed_missmatches,
         "--mc-start-position", toString start_position,
         "--mc-end-position", toString end_position,
         "--min-cluster-size", toString min_cluster_size]
      else [])
  ++ (match output_folder with
      | some f => ["--output-folder", f]
      | none => [])

/-- The prefix of the error message of lines 290-291. -/
def datasetErrPrefix : String := "Error, There was an error creating the dataset: "

/-- `Pipeline.createDataset`, parametrised by the behaviour `exec` of the
spawned process. After `communicate()`, the source raises whenever
`len(errmsg) > 0`, and otherwise logs `stdout.split("\n")` as statistics;
`proc.returncode` is never read. -/
def createDataset (exec : List String → ProcResult)
    (input_name output_name : String) (molecular_barcodes : Bool)
    (allowed_missmatches start_position end_position min_cluster_size : Int)
    (output_folder : Option String) : Except String (List String) :=
  let r := exec (buildDatasetArgs input_name output_name molecular_barcodes
      allowed_missmatches start_position end_position min_cluster_size output_folder)
  if r.errmsg.length > 0 then
    .error (datasetErrPrefix ++ r.errmsg)
  else
    .ok (pySplit '\n' r.stdout)

/-! ## Stage/artifact trace of a successful run — `Pipeline.run`, lines 208-262

`run` is modelled by the ordered event trace a run that completes every
stage emits: each external stage call, each temporary-file creation, and
each `if self.clean: safeRemove(...)` deletion. Artifact names stand for
the paths the stage helpers return. When a contaminant index is
configured, `withTr` is the pre-filter artifact (`oldWithTr`) and
`withTr_filtered` the new output of the contamination stage. -/

inductive RunEvent where
  | stage (name : String)
  | create (file : String)
  | remove (file : String)
deriving DecidableEq, BEq

/-- The event trace of a `run` that completes without error, in source
order (lines 215-258). -/
def runTrace (clean contaminant : Bool) : List RunEvent :=
  [.stage ("reformatRawReads"), .create ("R1_trimmed"), .create ("R2_trimmed"),
   .stage ("bowtie2Map"), .create ("sam_mapped"),
   .stage ("filterUnmapped"), .create ("sam_filtered")]
  ++ (if clean then [.remove ("sam_mapped")] else [])
  ++ [.stage ("annotateReadsWithHTSeq"), .create ("annotatedFile")]
  ++ (if clean then [.remove ("sam_filtered")] else [])
  ++ [.stage ("getAnnotatedReadsFastq"), .create ("withTr")]
  ++ (if clean then [.remove ("annotatedFile")] else [])
  ++ (if contaminant then
        [.stage ("bowtie2ContaminationMap"), .create ("withTr_filtered"),
         .create ("contaminated_sam")]
        ++ (if clean then [.remove ("contaminated_sam"), .remove ("withTr")] else [])
      else [])
  ++ (if clean then [.remove ("R1_trimmed"), .remove ("R2_trimmed")] else [])
  ++ [.stage ("getTrToIdMap"), .create ("mapFile")]
  ++ (if clean then
        [if contaminant then .remove ("withTr_filtered") else .remove ("withTr")]
      else [])
  ++ [.stage ("createDataset")]
  ++ (if clean then [.remove ("mapFile")] else [])

/-- Files created by a trace and not later removed. -/
def remainingFiles (t : List RunEvent) : List String :=
  t.foldl
    (fun acc e =>
      match e with
      | .create f => acc ++ [f]
      | .remove f => acc.filter (fun g => g ≠ f)
      | .stage _ => acc)
    []

/-- All files a trace removes. -/
def removedFiles (t : List RunEvent) : List String :=
  t.filterMap
    (fun e =>
      match e with
      | .remove f => some f
      | _ => none)

/-- The stage artifacts a successful run creates in the temp folder. -/
def stageArtifacts (contaminant : Bool) : List String :=
  ["R1_trimmed", "R2_trimmed", "sam_mapped", "sam_filtered", "annotatedFile",
   "withTr", "mapFile"]
  ++ (if contaminant then ["withTr_filtered", "contaminated_sam"] else [])

/-- The stages that read a given artifact, from the data flow of
lines 215-258: the trimmed reads feed both the aligner (line 220) and the
read reconstruction (lines 232-233); `contaminated_sam` has no consumer,
so its producing stage stands in. -/
def consumersOf (contaminant : Bool) (f : String) : List String :=
  if f = "R1_trimmed" ∨ f = "R2_trimmed" then
    ["bowtie2Map", "getAnnotatedReadsFastq"]
  else if f = "sam_mapped" then ["filterUnmapped"]
  else if f = "sam_filtered" then ["annotateReadsWithHTSeq"]
  else if f = "annotatedFile" then ["getAnnotatedReadsFastq"]
  else if f = "withTr" then
    (if contaminant then ["bowtie2ContaminationMap"] else ["getTrToIdMap"])
  else if f = "withTr_filtered" then ["getTrToIdMap"]
  else if f = "contaminated_sam" then ["bowtie2ContaminationMap"]
  else if f = "mapFile" then ["createDataset"]
  else []

/-- The stage event nearest before the removal of `f` in the trace
(`last` accumulates the most recent stage seen). -/
def lastStageBefore : List RunEvent → String → Option String → Option String
  | [], _, _ => none
  | .stage s :: t, f, _ => lastStageBefore t f (some s)
  | .remove g :: t, f, last => if g = f then last else lastStageBefore t f last
  | .create _ :: t, f, last => lastStageBefore t f last

/-- `f` is removed immediately after one of its consuming stages: no other
stage runs between that consumer and the removal. -/
def immediateRemoval (t : List RunEvent) (f : String) (cs : List String) : Bool :=
  match lastStageBefore t f none with
  | some s => cs.contains s
  | none => false

/-- `f` is removed at some point after every one of its consuming stages
has run. -/
def removedAfterConsumers (t : List RunEvent) (f : String) (cs : List String) : Bool :=
  match t.findIdx? (fun e => e == .remove f) with
  | none => false
  | some ri =>
    cs.all (fun s =>
      match t.findIdx? (fun e => e == .stage s) with
      | some si => decide (si < ri)
      | none => false)

/-! ## Chunk adapter control flow — `Pipeline.run_pipeline`, lines 159-206

The generator, per chunk: write the two temporary read files, run the
controller (sanity check + `run` + reading `<name>_barcodes.json`), yield
one `(feature, hits)` pair per dataset entry, then remove the chunk's four
temporary files. The controller-plus-parse step for each chunk is
abstracted as an `Except` outcome carrying the dataset entries. -/

/-- One entry of the per-feature dataset `<name>_barcodes.json`. -/
structure JsonDoc where
  y : Int
  x : Int
  gene : String
  barcode : String
  hits : Nat
deriving DecidableEq

/-- The `doc_json_formated` record the generator yields (lines 195-200). -/
structure FeatureRecord where
  y : Int
  x : Int
  gene : String
  barcode : String
deriving DecidableEq

/-- The four chunk-scoped temporary files removed at lines 203-206; the
on-disk path of `⟨n, role⟩` is `n` followed by the role's fixed suffix
(`_1.fastq`, `_2.fastq`, `_barcodes.json`, `_reads.json`). -/
inductive TempRole where
  | fq1
  | fq2
  | barcodesJson
  | readsJson
deriving DecidableEq

structure TempFile where
  name : String
  role : TempRole
deriving DecidableEq

def chunkTempFiles (n : String) : List TempFile :=
  [⟨n, .fq1⟩, ⟨n, .fq2⟩, ⟨n, .barcodesJson⟩, ⟨n, .readsJson⟩]

/-- One chunk as the adapter sees it: its fresh temp name and the outcome
of the controller invocation plus dataset parse for it. -/
structure ChunkRun where
  name : String
  outcome : Except String (List JsonDoc)

/-- The `(doc_json_formated, hits)` pairs one successful chunk yields. -/
def chunkYield (c : ChunkRun) : List (FeatureRecord × Nat) :=
  match c.outcome with
  | .ok docs => docs.map (fun d => (⟨d.y, d.x, d.gene, d.barcode⟩, d.hits))
  | .error _ => []

/-- The observable behaviour of the `run_pipeline` generator over a list
of chunks: the pairs it yields, the temporary files it removes, and the
error (if any) that escapes the lazy sequence. A chunk whose controller
invocation raises yields nothing, removes nothing, and halts the whole
sequence (the `safeRemove` calls at lines 203-206 run only after the
chunk's dataset has been fully consumed). -/
def runPipelineAdapter : List ChunkRun → List (FeatureRecord × Nat) × List TempFile × Option String
  | [] => ([], [], none)
  | c :: rest =>
    match c.outcome with
    | .error e => ([], [], some e)
    | .ok _ =>
      let r := runPipelineAdapter rest
      (chunkYield c ++ r.1, chunkTempFiles c.name ++ r.2.1, r.2.2)

/-! ## Concrete fixtures for witnesses and counterexamples -/

/-- An environment in which every file check passes and every executable
resolves. -/
def envAllOk : Env := ⟨fun _ => true, fun _ => some ("/usr/bin/tool")⟩

/-- An environment in which every file check passes but no executable
resolves. -/
def envNoTools : Env := ⟨fun _ => true, fun _ => none⟩

/-- An environment in which every file check passes and exactly the two
scripts the source checks resolve; in particular the dataset-builder
script and the annotation counter do not. -/
def envTwoTools : Env :=
  ⟨fun _ => true,
   fun s => if s = "findIndexes" ∨ s = "bowtie2" then some ("/usr/bin/tool") else none⟩

/-- An environment in which no file check passes and no executable
resolves. -/
def envNothing : Env := ⟨fun _ => false, fun _ => none⟩

/-- A fully valid configuration. -/
def cfgGood : Pipeline :=
  ⟨some ("fw.fastq"), some ("rv.fastq"), some ("ids.txt"), some ("index"),
   some ("genes.gtf"), some ("exp1"), "intersection-nonempty",
   false, 19, 30, 18, true, none⟩

/-- A configuration valid except for its molecular-barcode window:
`start = 10 < l = 18`, `end = 30`. -/
def cfgMB : Pipeline :=
  ⟨some ("fw.fastq"), some ("rv.fastq"), some ("ids.txt"), some ("index"),
   some ("genes.gtf"), some ("exp1"), "intersection-nonempty",
   true, 10, 30, 18, true, none⟩

/-- A configuration violating every check group at once: all required
files missing, no reference index, no experiment name, unrecognised
counting mode, and an invalid molecular-barcode window (the annotation
path is present, with the right extension, so that line 68 does not raise
first). -/
def cfgManyViolations : Pipeline :=
  ⟨none, none, none, none, some ("x.gtf"), none, "bad-mode",
   true, 10, 30, 18, true, none⟩

/-- A configuration whose annotation path is `None` and whose other
required files are missing as well. -/
def cfgAllNone : Pipeline :=
  ⟨none, none, none, none, none, none, "union", false, 19, 30, 18, true, none⟩

/-! ## Claims C3 and C8 — chunk line parsing -/

/-- Claim C3: a text line fed to the chunk adapter is turned into a
forward/reverse record pair iff it has exactly 5 fields after the
source's decomposition (`line.replace("\t", " ").split(" ")`); any other
field count makes the (total) parse skip the line, producing no record
and no error. -/
theorem parseLine_iff_five_fields (line : List Char) :
    ((parseLine line).isSome = true ↔ (cols line).length = 5)
    ∧ ((cols line).length ≠ 5 → parseLine line = none) := by
  constructor
  · unfold parseLine
    by_cases h : (cols line).length = 5 <;> simp [h]
  · intro h
    unfold parseLine
    simp [h]

/-- Claim C3 witness: a 5-field line parses, a 4-field line is skipped. -/
theorem parseLine_iff_five_fields_witness :
    (parseLine ("h1 AAAA IIII CCCC IIII").data).isSome = true
    ∧ parseLine ("h1 AAAA IIII CCCC").data = none :=
  ⟨(parseLine_iff_five_fields (("h1 AAAA IIII CCCC IIII").data)).1.mpr (by decide),
   (parseLine_iff_five_fields (("h1 AAAA IIII CCCC").data)).2 (by decide)⟩

/-- The loop of lines 167-177 appends, in line order, one record pair per
line that parses. -/
theorem foldl_pairStep (lines : List (List Char)) (a b : List FqRecord) :
    lines.foldl pairStep (a, b)
      = (a ++ lines.filterMap (fun l => (parseLine l).map Prod.fst),
         b ++ lines.filterMap (fun l => (parseLine l).map Prod.snd)) := by
  induction lines generalizing a b with
  | nil => simp
  | cons l ls ih =>
    cases h : parseLine l with
    | none => simp [pairStep, h, ih a b]
    | some pr =>
      obtain ⟨r1, r2⟩ := pr
      simp [pairStep, h, ih (a ++ [r1]) (b ++ [r2])]

/-- Claim C8: per chunk, the forward file receives `(header, seq1, qual1)`
and the reverse file `(header, seq2, qual2)` for each valid 5-field line
in original order; the given 2-valid-line chunk yields exactly 2 records
per file in line order, and the chunk with one 4-field line and one valid
line yields exactly 1 record pair. -/
theorem processChunk_pairs :
    (∀ chunk : List Char,
       processChunk chunk
         = ((splitOnChar '\n' chunk).filterMap (fun l => (parseLine l).map Prod.fst),
            (splitOnChar '\n' chunk).filterMap (fun l => (parseLine l).map Prod.snd)))
    ∧ processChunk ("h1 AAAA IIII CCCC IIII\nh2 GGGG IIII TTTT IIII").data
        = ([⟨("h1").data, ("AAAA").data, ("IIII").data⟩,
            ⟨("h2").data, ("GGGG").data, ("IIII").data⟩],
           [⟨("h1").data, ("CCCC").data, ("IIII").data⟩,
            ⟨("h2").data, ("TTTT").data, ("IIII").data⟩])
    ∧ processChunk ("h1 AAAA IIII CCCC\nh2 GGGG IIII TTTT IIII").data
        = ([⟨("h2").data, ("GGGG").data, ("IIII").data⟩],
           [⟨("h2").data, ("TTTT").data, ("IIII").data⟩]) := by
  refine ⟨fun chunk => ?_, by decide, by decide⟩
  simpa [processChunk] using foldl_pairStep (splitOnChar '\n' chunk) [] []

/-- Claim C8 witness: the order-preservation equation evaluated on a
concrete one-line chunk. -/
theorem processChunk_pairs_witness :
    processChunk ("h9 AA II CC II").data
      = ([⟨("h9").data, ("AA").data, ("II").data⟩],
         [⟨("h9").data, ("CC").data, ("II").data⟩]) := by
  have h := (processChunk_pairs).1 (("h9 AA II CC II").data)
  simpa using h

/-! ## Claims C1, C6, C7, C10 — the sanity check -/

/-- Claim C1 counterexample: a configuration violating all three check
groups at once (every required file missing and bad counting mode; an
invalid molecular-barcode window; both required tools unavailable) makes
`sanityCheck` raise only the aggregated file/parameter error, which
carries the eight `conds` entries and mentions neither the window check
nor the missing tools — so validation does not aggregate *all* failing
checks into one error. -/
theorem sanityCheck_not_fully_aggregated :
    sanityCheck envNothing cfgManyViolations
      = .error (.condsError
          [("FW", false), ("RV", false), ("ids", false), ("ref", false),
           ("map", false), ("Exp Name", false), ("htseq_gtf", true),
           ("htseq_mode", false)])
    ∧ mcWindowViol cfgManyViolations = true
    ∧ unavailableScripts envNothing = ["findIndexes", "bowtie2"] := by
  refine ⟨?_, by decide, by decide⟩
  rfl

/-- Claim C1 (amended): the eight file/parameter checks are aggregated
into one error naming each check; but the molecular-barcode-window check
and the tool-availability check are separate, sequential raises performed
only after the preceding group passes, so validation is fail-fast across
the three groups. -/
theorem sanityCheck_group_sequencing (env : Env) (p : Pipeline) (ra : String)
    (h : p.ref_annot = some ra) :
    (condsOk env p ra = false →
       sanityCheck env p = .error (.condsError (condsList env p ra)))
    ∧ (condsOk env p ra = true → mcWindowViol p = true →
       sanityCheck env p = .error (.mcWindowError))
    ∧ (condsOk env p ra = true → mcWindowViol p = false →
       unavailableScripts env ≠ [] →
       sanityCheck env p = .error (.toolsError (unavailableScripts env)))
    ∧ (condsList env p ra).map Prod.fst
        = ["FW", "RV", "ids", "ref", "map", "Exp Name", "htseq_gtf", "htseq_mode"] := by
  refine ⟨?_, ?_, ?_, by simp [condsList]⟩
  · intro hc
    simp [sanityCheck, h, hc]
  · intro hc hw
    simp [sanityCheck, h, hc, hw]
  · intro hc hw ht
    have hne : (unavailableScripts env).isEmpty = false := by
      rcases hu : unavailableScripts env with _ | ⟨x, xs⟩
      · exact absurd hu ht
      · rfl
    simp [sanityCheck, h, hc, hw, hne]

/-- Claim C1 witness: the amended sequencing applied to the concrete
all-groups-violated configuration. -/
theorem sanityCheck_group_sequencing_witness :
    sanityCheck envNothing cfgManyViolations
      = .error (.condsError (condsList envNothing cfgManyViolations ("x.gtf"))) :=
  (sanityCheck_group_sequencing envNothing cfgManyViolations ("x.gtf") rfl).1 (by decide)

/-- Claim C6: for a configuration whose file/parameter checks pass, whose
tools resolve, and whose molecular-barcode mode is enabled, validation
fails iff the window start is below the trimming prefix length or the
window end is at most the start, and such a failure is the
barcode-window error. -/
theorem sanityCheck_mc_window (env : Env) (p : Pipeline) (ra : String)
    (h : p.ref_annot = some ra) (hc : condsOk env p ra = true)
    (ht : unavailableScripts env = []) (hm : p.molecular_barcodes = true) :
    (sanityCheck env p ≠ .ok () ↔
       (p.mc_start_position < p.l ∨ p.mc_end_position ≤ p.mc_start_position))
    ∧ ((p.mc_start_position < p.l ∨ p.mc_end_position ≤ p.mc_start_position) →
       sanityCheck env p = .error (.mcWindowError)) := by
  by_cases hw : p.mc_start_position < p.l ∨ p.mc_end_position ≤ p.mc_start_position
  · have hv : mcWindowViol p = true := by
      rcases hw with hw | hw <;> simp [mcWindowViol, hm, hw]
    have he : sanityCheck env p = .error (.mcWindowError) := by
      simp [sanityCheck, h, hc, hv]
    refine ⟨?_, fun _ => he⟩
    rw [he]
    simp [hw]
  · have h1 : ¬ p.mc_start_position < p.l := fun a => hw (Or.inl a)
    have h2 : ¬ p.mc_end_position ≤ p.mc_start_position := fun a => hw (Or.inr a)
    have hv : mcWindowViol p = false := by
      simp [mcWindowViol, hm, h1, h2]
    have he : sanityCheck env p = .ok () := by
      simp [sanityCheck, h, hc, hv, ht]
    rw [he]
    simp [hw]

/-- Claim C6 witness: the configuration with `start = 10`, `end = 30`,
`trim_prefix_length = 18` fails validation with the barcode-window
error. -/
theorem sanityCheck_mc_window_witness :
    sanityCheck envAllOk cfgMB = .error (.mcWindowError)
    ∧ sanityCheck envAllOk cfgMB ≠ .ok () := by
  have h := sanityCheck_mc_window envAllOk cfgMB ("genes.gtf") rfl (by decide)
    (by decide) rfl
  exact ⟨h.2 (by decide), h.1.mpr (by decide)⟩

/-- Claim C7 counterexample: in an environment where the dataset-builder
script (`createDataset.py`) and the annotation counter do not resolve but
`findIndexes` and `bowtie2` do, validation succeeds — `sanityCheck` does
not resolve one tool per required external collaborator. -/
theorem sanityCheck_ignores_dataset_builder :
    envTwoTools.which ("createDataset.py") = none
    ∧ envTwoTools.which ("htseq-count") = none
    ∧ sanityCheck envTwoTools cfgGood = .ok () := by
  refine ⟨by decide, by decide, ?_⟩
  rfl

/-- Claim C7 (amended): before any stage runs, validation resolves
exactly the two script names `findIndexes` (barcode matcher) and
`bowtie2` (aligner): it succeeds iff both resolve, it raises an error
naming precisely the unresolvable ones among these two, and its outcome
is unchanged by any environment that resolves the same names for these
two scripts — the dataset builder and annotation counter are never
checked. -/
theorem sanityCheck_tools (env : Env) (p : Pipeline) (ra : String)
    (h : p.ref_annot = some ra) (hc : condsOk env p ra = true)
    (hw : mcWindowViol p = false) :
    (sanityCheck env p = .ok () ↔ unavailableScripts env = [])
    ∧ (unavailableScripts env ≠ [] →
        sanityCheck env p = .error (.toolsError (unavailableScripts env)))
    ∧ (∀ env2 : Env, env2.fileOk = env.fileOk →
        (∀ s ∈ requiredScripts, env2.which s = env.which s) →
        sanityCheck env2 p = sanityCheck env p) := by
  refine ⟨?_, ?_, ?_⟩
  · by_cases hu : unavailableScripts env = []
    · simp [sanityCheck, h, hc, hw, hu]
    · have hne : (unavailableScripts env).isEmpty = false := by
        rcases he : unavailableScripts env with _ | ⟨x, xs⟩
        · exact absurd he hu
        · rfl
      simp [sanityCheck, h, hc, hw, hne, hu]
  · intro hu
    have hne : (unavailableScripts env).isEmpty = false := by
      rcases he : unavailableScripts env with _ | ⟨x, xs⟩
      · exact absurd he hu
      · rfl
    simp [sanityCheck, h, hc, hw, hne]
  · intro env2 hfo hwhich
    have hu : unavailableScripts env2 = unavailableScripts env := by
      unfold unavailableScripts
      exact List.filter_congr (fun s hs => by rw [hwhich s hs])
    have hcl : condsList env2 p ra = condsList env p ra := by
      simp [condsList, hfo]
    have hco : condsOk env2 p ra = condsOk env p ra := by
      rw [condsOk, condsOk, hcl]
    simp [sanityCheck, h, hcl, hco, hu]

/-- Claim C7 witness: with no tool resolvable, validation fails naming
both checked scripts. -/
theorem sanityCheck_tools_witness :
    sanityCheck envNoTools cfgGood = .error (.toolsError ["findIndexes", "bowtie2"]) := by
  have h := (sanityCheck_tools envNoTools cfgGood ("genes.gtf") rfl (by decide)
    (by decide)).2.1 (by decide)
  exact h

/-- Claim C10: when the annotation path is `None`, validation raises the
attribute error of the unguarded `ref_annotation.endswith("gtf")` at
line 68 and never produces the aggregated configuration error, whatever
other required files are missing. -/
theorem sanityCheck_none_annot_attribute_error (env : Env) (p : Pipeline)
    (h : p.ref_annot = none) :
    sanityCheck env p
        = .error (.attributeError ("NoneType object has no attribute endswith"))
    ∧ ∀ conds, sanityCheck env p ≠ .error (.condsError conds) := by
  have he : sanityCheck env p
      = .error (.attributeError ("NoneType object has no attribute endswith")) := by
    simp [sanityCheck, h]
  refine ⟨he, fun conds hcon => ?_⟩
  rw [he] at hcon
  simp at hcon

/-- Claim C10 witness: a configuration missing every required file,
annotation path included, fails with the attribute error, not the
aggregated error. -/
theorem sanityCheck_none_annot_witness :
    envNothing.fileOk cfgAllNone.Fastq_fw = false
    ∧ sanityCheck envNothing cfgAllNone
        = .error (.attributeError ("NoneType object has no attribute endswith")) :=
  ⟨rfl, (sanityCheck_none_annot_attribute_error envNothing cfgAllNone rfl).1⟩

/-! ## Claims C2 and C9 — the dataset-builder invocation -/

/-- A process behaviour that writes a warning on the diagnostic channel
yet exits with status zero. -/
def execWarnZero : List String → ProcResult := fun _ => ⟨"", "some warning", 0⟩

/-- A process behaviour that prints statistics, writes nothing on the
diagnostic channel, and exits with the nonzero status 7. -/
def execStatsSeven : List String → ProcResult := fun _ => ⟨"stats line", "", 7⟩

/-- Like `execStatsSeven` but exiting with status 0. -/
def execStatsZero : List String → ProcResult := fun _ => ⟨"stats line", "", 0⟩

/-- Claim C2: whenever the spawned dataset-builder process writes a
non-empty diagnostic output, `createDataset` fails with an error carrying
the captured diagnostic text — the exit status is unconstrained, so this
holds in particular when it is zero. -/
theorem createDataset_errmsg_fatal (exec : List String → ProcResult)
    (input_name output_name : String) (molecular_barcodes : Bool)
    (allowed_missmatches start_position end_position min_cluster_size : Int)
    (output_folder : Option String)
    (h : 0 < (exec (buildDatasetArgs input_name output_name molecular_barcodes
        allowed_missmatches start_position end_position min_cluster_size
        output_folder)).errmsg.length) :
    createDataset exec input_name output_name molecular_barcodes
        allowed_missmatches start_position end_position min_cluster_size output_folder
      = .error (datasetErrPrefix
          ++ (exec (buildDatasetArgs input_name output_name molecular_barcodes
              allowed_missmatches start_position end_position min_cluster_size
              output_folder)).errmsg) := by
  simp [createDataset, h]

/-- Claim C2 witness: a process with exit status 0 whose diagnostic
channel holds "some warning" makes the invocation fail with that text. -/
theorem createDataset_errmsg_fatal_witness :
    (execWarnZero []).returncode = 0
    ∧ createDataset execWarnZero ("map.txt") ("exp1") false 1 19 30 2 none
        = .error (datasetErrPrefix ++ "some warning") :=
  ⟨rfl, createDataset_errmsg_fatal execWarnZero ("map.txt") ("exp1") false 1 19 30 2
    none (by decide)⟩

/-- Claim C9: `createDataset` never inspects the exit status — two
processes agreeing on stdout and the diagnostic channel give identical
outcomes whatever their exit statuses, and an empty diagnostic channel
always yields success with the process's standard output split into the
logged statistics lines. -/
theorem createDataset_ignores_returncode (e1 e2 : List String → ProcResult)
    (input_name output_name : String) (molecular_barcodes : Bool)
    (allowed_missmatches start_position end_position min_cluster_size : Int)
    (output_folder : Option String)
    (hagree : ∀ a, (e1 a).stdout = (e2 a).stdout ∧ (e1 a).errmsg = (e2 a).errmsg) :
    createDataset e1 input_name output_name molecular_barcodes
        allowed_missmatches start_position end_position min_cluster_size output_folder
      = createDataset e2 input_name output_name molecular_barcodes
        allowed_missmatches start_position end_position min_cluster_size output_folder
    ∧ ((e1 (buildDatasetArgs input_name output_name molecular_barcodes
          allowed_missmatches start_position end_position min_cluster_size
          output_folder)).errmsg = "" →
        createDataset e1 input_name output_name molecular_barcodes
          allowed_missmatches start_position end_position min_cluster_size output_folder
        = .ok (pySplit '\n' (e1 (buildDatasetArgs input_name output_name
            molecular_barcodes allowed_missmatches start_position end_position
            min_cluster_size output_folder)).stdout)) := by
  have hs := (hagree (buildDatasetArgs input_name output_name molecular_barcodes
      allowed_missmatches start_position end_position min_cluster_size output_folder)).1
  have he := (hagree (buildDatasetArgs input_name output_name molecular_barcodes
      allowed_missmatches start_position end_position min_cluster_size output_folder)).2
  constructor
  · simp [createDataset, hs, he]
  · intro h0
    simp [createDataset, h0]

/-- Claim C9 witness: a statistics-printing process with exit status 7 is
treated exactly like the same process with exit status 0, and succeeds. -/
theorem createDataset_ignores_returncode_witness :
    (execStatsSeven []).returncode = 7
    ∧ createDataset execStatsSeven ("map.txt") ("exp1") false 1 19 30 2 none
        = createDataset execStatsZero ("map.txt") ("exp1") false 1 19 30 2 none
    ∧ createDataset execStatsSeven ("map.txt") ("exp1") false 1 19 30 2 none
        = .ok (pySplit '\n' (execStatsSeven (buildDatasetArgs ("map.txt") ("exp1")
            false 1 19 30 2 none)).stdout) := by
  have h := createDataset_ignores_returncode execStatsSeven execStatsZero ("map.txt")
    ("exp1") false 1 19 30 2 none (fun a => ⟨rfl, rfl⟩)
  exact ⟨rfl, h.1, h.2 rfl⟩

/-! ## Claim C4 — intermediate-artifact cleanup in `run` -/

/-- Claim C4 counterexample: in a clean contaminant-filter run, the
trimmed forward reads are removed — but only after the contaminant stage
(`bowtie2_contamination_map`, which does not consume them) has run, one
full stage after their last consuming stage (`getAnnotatedReadsFastq`);
the removal is therefore not immediately after the consuming stage
completes. -/
theorem trimmed_reads_not_removed_immediately :
    ("R1_trimmed") ∈ removedFiles (runTrace true true)
    ∧ lastStageBefore (runTrace true true) ("R1_trimmed") none
        = some ("bowtie2ContaminationMap")
    ∧ ("bowtie2ContaminationMap") ∉ consumersOf true ("R1_trimmed")
    ∧ immediateRemoval (runTrace true true) ("R1_trimmed")
        (consumersOf true ("R1_trimmed")) = false := by
  decide

/-- Claim C4 (amended): for every successful clean run (with or without a
contaminant index), every stage artifact — mapped, filtered, annotated,
annotated-with-reads, trimmed forward/reverse reads, barcode-mapped file,
and in contaminant runs the contaminant alignment and pre-filter
artifact — is removed after its consuming stages have completed, and at
the end no stage artifact file remains in the temp folder; each removal is
immediate (no intervening stage) except for the trimmed read files in
contaminant runs, which are removed only after the contaminant stage. -/
theorem run_clean_removes_all_artifacts :
    ∀ contaminant : Bool,
      remainingFiles (runTrace true contaminant) = []
      ∧ (∀ f ∈ stageArtifacts contaminant,
           f ∈ removedFiles (runTrace true contaminant)
           ∧ removedAfterConsumers (runTrace true contaminant) f
               (consumersOf contaminant f) = true)
      ∧ (∀ f ∈ stageArtifacts false,
           immediateRemoval (runTrace true false) f (consumersOf false f) = true)
      ∧ (∀ f ∈ stageArtifacts true,
           f ≠ "R1_trimmed" → f ≠ "R2_trimmed" →
           immediateRemoval (runTrace true true) f (consumersOf true f) = true) := by
  intro contaminant
  cases contaminant <;> decide

/-- Claim C4 witness: the amended statement applied to the contaminant
run and the mapped-alignment artifact. -/
theorem run_clean_removes_all_artifacts_witness :
    remainingFiles (runTrace true true) = []
    ∧ ("sam_mapped") ∈ removedFiles (runTrace true true)
    ∧ removedAfterConsumers (runTrace true true) ("sam_mapped")
        (consumersOf true ("sam_mapped")) = true
    ∧ immediateRemoval (runTrace true false) ("sam_mapped")
        (consumersOf false ("sam_mapped")) = true := by
  have h := run_clean_removes_all_artifacts true
  have h2 := h.2.1 ("sam_mapped") (by decide)
  exact ⟨h.1, h2.1, h2.2, h.2.2.1 ("sam_mapped") (by decide)⟩

/-! ## Claim C5 — error propagation in the chunk adapter -/

/-- Over a prefix of chunks whose controller invocations all succeed, the
adapter yields each chunk's records, removes each chunk's four temporary
files, and then halts at the first chunk whose invocation raises, with
the error escaping the sequence. -/
theorem adapter_ok_chunks : ∀ (pre : List ChunkRun) (name e : String)
    (post : List ChunkRun),
    (∀ c ∈ pre, ∃ ds, c.outcome = .ok ds) →
    runPipelineAdapter (pre ++ ⟨name, .error e⟩ :: post)
      = (pre.flatMap chunkYield, pre.flatMap (fun c => chunkTempFiles c.name), some e)
  | [], _, _, _, _ => rfl
  | c :: cs, name, e, post, hok => by
    obtain ⟨ds, hds⟩ := hok c (List.mem_cons_self c cs)
    have ih := adapter_ok_chunks cs name e post
      (fun x hx => hok x (List.mem_cons_of_mem c hx))
    simp [runPipelineAdapter, hds, ih]

/-- Claim C5: if the controller invocation for one chunk raises, the
adapter removes none of that chunk's four temporary files, yields no
record for that chunk or any later chunk, and the error propagates out of
the sequence: its observable behaviour is exactly the yields and removals
of the preceding successful chunks plus the escaping error. -/
theorem adapter_halts_on_error (pre : List ChunkRun) (name e : String)
    (post : List ChunkRun)
    (hok : ∀ c ∈ pre, ∃ ds, c.outcome = .ok ds)
    (hfresh : ∀ c ∈ pre, c.name ≠ name) :
    runPipelineAdapter (pre ++ ⟨name, .error e⟩ :: post)
        = (pre.flatMap chunkYield, pre.flatMap (fun c => chunkTempFiles c.name), some e)
    ∧ ∀ f ∈ chunkTempFiles name, f ∉ pre.flatMap (fun c => chunkTempFiles c.name) := by
  refine ⟨adapter_ok_chunks pre name e post hok, ?_⟩
  intro f hf hmem
  rw [List.mem_flatMap] at hmem
  obtain ⟨c, hc, hfc⟩ := hmem
  have h1 : f.name = name := by
    simp [chunkTempFiles] at hf
    rcases hf with h | h | h | h <;> simp [h]
  have h2 : f.name = c.name := by
    simp [chunkTempFiles] at hfc
    rcases hfc with h | h | h | h <;> simp [h]
  exact hfresh c hc (h2.symm.trans h1)

/-- A successful chunk yielding one feature record. -/
def chunkOkRun : ChunkRun := ⟨"chunk0", .ok [⟨1, 2, "geneA", "ACGT", 3⟩]⟩

/-- A chunk scheduled after the failing one. -/
def chunkAfterRun : ChunkRun := ⟨"chunk2", .ok []⟩

/-- Claim C5 witness: with one successful chunk, then a chunk whose
invocation raises, then another chunk, the adapter yields only the first
chunk's record, removes only the first chunk's files, and surfaces the
error. -/
theorem adapter_halts_on_error_witness :
    runPipelineAdapter ([chunkOkRun] ++ ⟨("chunk1"), .error ("controller failed")⟩ :: [chunkAfterRun])
      = ([(⟨1, 2, ("geneA"), ("ACGT")⟩, 3)],
         [⟨("chunk0"), .fq1⟩, ⟨("chunk0"), .fq2⟩,
          ⟨("chunk0"), .barcodesJson⟩, ⟨("chunk0"), .readsJson⟩],
         some ("controller failed")) :=
  (adapter_halts_on_error [chunkOkRun] ("chunk1") ("controller failed") [chunkAfterRun]
    (fun c hc => by
      rw [List.mem_singleton] at hc
      subst hc
      exact ⟨[⟨1, 2, "geneA", "ACGT", 3⟩], rfl⟩)
    (fun c hc => by
      rw [List.mem_singleton] at hc
      subst hc
      decide)).1
